import Mathlib

/-!
Verification of the connection/session manager of the Elastico
Elasticsearch client (`src-tauri/src/elasticsearch.rs`).

The Rust handlers are shallowly embedded as pure Lean functions.  The
HTTP transport (reqwest) is an external collaborator: each handler takes
an `HttpOutcome` oracle describing what the single network call would
return, and the embedding records an event trace (lock/unlock of the two
process-wide mutexes and the network call) so that ordering properties
("no network call is issued", "lock never held across an await") are
statable.  `serde_json::from_str`, used only to parse the caller's query
text, is likewise external and passed as a function parameter.
-/

set_option autoImplicit false

namespace Elastico

/-- Model of a `serde_json::Value`: JSON values with integer numerals
(the claims under study only involve integer-valued numbers). -/
inductive Json where
  | null
  | bool (b : Bool)
  | num (n : Int)
  | str (s : String)
  | arr (elems : List Json)
  | obj (fields : List (String × Json))

/-- `value["key"]` of serde_json: field of an object, `Null` when the key
is missing or the value is not an object. -/
def Json.getKey (j : Json) (k : String) : Json :=
  match j with
  | .obj fields =>
    match fields.lookup k with
    | some v => v
    | none => .null
  | _ => .null

/-- `Value::as_u64`: the numeral when it is a non-negative integer that
fits in 64 bits. -/
def Json.asU64 (j : Json) : Option Nat :=
  match j with
  | .num n => if 0 ≤ n ∧ n < 2 ^ 64 then some n.toNat else none
  | _ => none

/-- `Value::as_str`. -/
def Json.asStr (j : Json) : Option String :=
  match j with
  | .str s => some s
  | _ => none

/-- `Value::as_bool`. -/
def Json.asBool (j : Json) : Option Bool :=
  match j with
  | .bool b => some b
  | _ => none

/-- `Value::as_array`. -/
def Json.asArr (j : Json) : Option (List Json) :=
  match j with
  | .arr elems => some elems
  | _ => none

/-- `Value::is_object`. -/
def Json.isObj (j : Json) : Bool :=
  match j with
  | .obj _ => true
  | _ => false

/-- `ElasticsearchConnection` (elasticsearch.rs lines 28-39): the
connection descriptor submitted by the GUI. -/
structure ElasticsearchConnection where
  id : String
  name : String
  host : String
  port : Nat
  username : Option String
  password : Option String
  ssl : Option Bool
  api_key : Option String
  auth_type : String
deriving DecidableEq, Repr

/-- `get_base_url` (lines 84-87). -/
def get_base_url (conn : ElasticsearchConnection) : String :=
  let protocol := if conn.ssl.getD false then "https" else "http"
  protocol ++ "://" ++ conn.host ++ ":" ++ toString conn.port

/-! ### Base64 (the `base64` crate's STANDARD engine) and UTF-8 bytes -/

/-- The standard base64 alphabet. -/
def b64Alphabet : List Char :=
  "ABCDEFGHIJKLMNOPQRSTUVWXYZabcdefghijklmnopqrstuvwxyz0123456789+/".toList

/-- The base64 digit for a 6-bit group. -/
def b64Char (n : Nat) : Char := b64Alphabet.getD n 'A'

/-- Encode one chunk of at most three bytes into base64 characters, with
`=` padding. -/
def b64EncodeChunk : List Nat → List Char
  | [a, b, c] => [b64Char (a / 4), b64Char (a % 4 * 16 + b / 16),
                  b64Char (b % 16 * 4 + c / 64), b64Char (c % 64)]
  | [a, b] => [b64Char (a / 4), b64Char (a % 4 * 16 + b / 16),
               b64Char (b % 16 * 4), '=']
  | [a] => [b64Char (a / 4), b64Char (a % 4 * 16), '=', '=']
  | _ => []

/-- Encode a byte sequence in standard base64 with padding. -/
def b64EncodeBytes : List Nat → List Char
  | [] => []
  | [a] => b64EncodeChunk [a]
  | [a, b] => b64EncodeChunk [a, b]
  | a :: b :: c :: rest => b64EncodeChunk [a, b, c] ++ b64EncodeBytes rest

/-- UTF-8 encoding of one code point, as byte values. -/
def utf8Bytes (c : Char) : List Nat :=
  let n := c.toNat
  if n < 0x80 then [n]
  else if n < 0x800 then [0xC0 + n / 64, 0x80 + n % 64]
  else if n < 0x10000 then [0xE0 + n / 4096, 0x80 + n / 64 % 64, 0x80 + n % 64]
  else [0xF0 + n / 262144, 0x80 + n / 4096 % 64, 0x80 + n / 64 % 64, 0x80 + n % 64]

/-- The UTF-8 bytes of a string. -/
def strBytes (s : String) : List Nat := (s.toList.map utf8Bytes).flatten

/-- `STANDARD.encode` of the base64 crate, applied to a Rust `String`. -/
def base64Encode (s : String) : String := String.mk (b64EncodeBytes (strBytes s))

/-! ### Header construction (`http::HeaderValue`, `HeaderMap`) -/

/-- A character is acceptable inside an `http::HeaderValue` built by
`from_str`: horizontal tab or any byte from 0x20 upward except DEL
(multi-byte UTF-8 characters only contribute bytes ≥ 0x80). -/
def isValidHeaderChar (c : Char) : Bool :=
  c = '\t' || (32 ≤ c.toNat && c.toNat ≠ 127)

/-- `HeaderValue::from_str` succeeds exactly when every character is
acceptable. -/
def isValidHeaderValue (s : String) : Bool := s.toList.all isValidHeaderChar

/-- Canonical names of the two headers used by the code. -/
def CONTENT_TYPE : String := "content-type"

/-- Canonical name of the authorization header. -/
def AUTHORIZATION : String := "authorization"

/-- `HeaderMap::insert`: replace the entry for the name if present,
otherwise append it. -/
def headerInsert (hs : List (String × String)) (k v : String) : List (String × String) :=
  if hs.any (fun p => p.fst == k) then
    hs.map (fun p => if p.fst == k then (k, v) else p)
  else hs ++ [(k, v)]

/-- `create_auth_headers` (lines 89-108): content-type always, plus an
authorization header per auth variant; `HeaderValue::from_str` failure is
surfaced as its error string. -/
def create_auth_headers (conn : ElasticsearchConnection) :
    Except String (List (String × String)) :=
  if conn.auth_type = "basic" then
    match conn.username, conn.password with
    | some username, some password =>
      if isValidHeaderValue ("Basic " ++ base64Encode (username ++ ":" ++ password)) then
        Except.ok (headerInsert (headerInsert [] CONTENT_TYPE "application/json")
          AUTHORIZATION ("Basic " ++ base64Encode (username ++ ":" ++ password)))
      else Except.error "failed to parse header value"
    | _, _ => Except.ok (headerInsert [] CONTENT_TYPE "application/json")
  else if conn.auth_type = "apiKey" then
    match conn.api_key with
    | some api_key =>
      if isValidHeaderValue ("ApiKey " ++ api_key) then
        Except.ok (headerInsert (headerInsert [] CONTENT_TYPE "application/json")
          AUTHORIZATION ("ApiKey " ++ api_key))
      else Except.error "failed to parse header value"
    | none => Except.ok (headerInsert [] CONTENT_TYPE "application/json")
  else Except.ok (headerInsert [] CONTENT_TYPE "application/json")

/-! ### Result shapes -/

/-- `ElasticsearchIndex` (lines 41-51). -/
structure ElasticsearchIndex where
  name : String
  health : String
  status : String
  docs_count : Nat
  docs_deleted : Nat
  primary_shards : Nat
  replica_shards : Nat
  storage_size : String
deriving DecidableEq, Repr

/-- `QueryShards` (lines 62-68); the Rust fields are `u32`. -/
structure QueryShards where
  total : Nat
  successful : Nat
  failed : Nat
  skipped : Nat
deriving DecidableEq, Repr

/-- `QueryResult` (lines 53-60). -/
structure QueryResult where
  hits : List Json
  total : Nat
  took : Nat
  timed_out : Bool
  shards : QueryShards

/-- `ClusterHealth` (lines 70-82); the Rust numeric fields are `u32`. -/
structure ClusterHealth where
  cluster_name : String
  status : String
  number_of_nodes : Nat
  number_of_data_nodes : Nat
  active_primary_shards : Nat
  active_shards : Nat
  relocating_shards : Nat
  initializing_shards : Nat
  unassigned_shards : Nat
  pending_tasks : Nat
deriving DecidableEq, Repr

/-! ### Transport oracle and event traces -/

/-- The two process-wide mutexes: `CONNECTION` (line 14) and `CLIENT`
(line 16). -/
inductive LockId where
  | connection
  | client
deriving DecidableEq, Repr

/-- An observable event of one handler execution: acquiring or releasing
one of the mutexes, or awaiting the single HTTP call. -/
inductive Event where
  | lock (l : LockId)
  | unlock (l : LockId)
  | netCall
deriving DecidableEq, Repr

/-- What the transport returns for the handler's one HTTP call:
a transport-level failure (`send()` returned `Err`), or a response with a
status code, the result of reading the body as JSON (`.json()`), and the
result of reading it as text (`.text()`, `none` when the read fails). -/
inductive HttpOutcome where
  | failure (e : String)
  | response (status : Nat) (jsonBody : Except String Json) (textBody : Option String)

/-- `StatusCode::is_success`: 2xx. -/
def statusIsSuccess (status : Nat) : Bool := 200 ≤ status && status < 300

/-- Result of running one handler: the `Result` value returned to the
caller, the session store (`CONNECTION`) contents after the call, and the
trace of lock and network events in execution order. -/
structure HandlerOutput (α : Type) where
  result : Except String α
  store : Option ElasticsearchConnection
  trace : List Event

/-- Number of network calls a trace performs. -/
def netCalls (es : List Event) : Nat := es.count Event.netCall

/-- Auxiliary scan: no network event occurs while any lock is held. -/
def noNetWhileLockedAux : List LockId → List Event → Bool
  | _, [] => true
  | held, Event.lock l :: rest => noNetWhileLockedAux (l :: held) rest
  | held, Event.unlock l :: rest => noNetWhileLockedAux (held.erase l) rest
  | held, Event.netCall :: rest => held.isEmpty && noNetWhileLockedAux held rest

/-- Every network call in the trace happens with both mutexes released. -/
def noNetWhileLocked (es : List Event) : Bool := noNetWhileLockedAux [] es

/-- Whether an event touches a mutex (acquire or release). -/
def isLockEvent : Event → Bool
  | .lock _ => true
  | .unlock _ => true
  | .netCall => false

/-- Every lock acquisition and release precedes every network call: after
the first network event, no lock event occurs. -/
def locksPrecedeNet : List Event → Bool
  | [] => true
  | Event.netCall :: rest => rest.all (fun e => !isLockEvent e)
  | _ :: rest => locksPrecedeNet rest

/-! ### Session access -/

/-- The read of the session store performed by every operation handler
(`conn_guard.as_ref().ok_or("Not connected to Elasticsearch")`): the
spec's `get()`. -/
def sessionGet (store : Option ElasticsearchConnection) :
    Except String ElasticsearchConnection :=
  match store with
  | some c => Except.ok c
  | none => Except.error "Not connected to Elasticsearch"

/-- Serde serialization of an optional string field. -/
def optStrJson : Option String → Json
  | some s => Json.str s
  | none => Json.null

/-- Serde serialization of an optional boolean field. -/
def optBoolJson : Option Bool → Json
  | some b => Json.bool b
  | none => Json.null

/-- Serde serialization of `ElasticsearchConnection` (its `Serialize`
derive), used when `connect` echoes the descriptor. -/
def connJson (c : ElasticsearchConnection) : Json :=
  Json.obj [("id", Json.str c.id), ("name", Json.str c.name),
    ("host", Json.str c.host), ("port", Json.num c.port),
    ("username", optStrJson c.username), ("password", optStrJson c.password),
    ("ssl", optBoolJson c.ssl), ("api_key", optStrJson c.api_key),
    ("auth_type", Json.str c.auth_type)]

/-! ### Operation handlers -/

/-- `connect_to_elasticsearch` (lines 110-183): ping `/_cluster/health`;
only on success status with a parsable body is the descriptor stored in
`CONNECTION`.  `clientAvailable` is whether the `CLIENT` mutex holds a
client (it always does in the running program); `outcome` is what the
transport returns; `store` is the prior `CONNECTION` contents. -/
def connect_to_elasticsearch (clientAvailable : Bool) (outcome : HttpOutcome)
    (connection : ElasticsearchConnection) (store : Option ElasticsearchConnection) :
    HandlerOutput Json :=
  if clientAvailable then
    match outcome with
    | .failure e =>
      { result := Except.error ("Error connecting to Elasticsearch: " ++ e ++
          ". This may be due to an invalid SSL certificate, network issue, or incorrect connection details.")
        store := store
        trace := [.lock .client, .unlock .client, .netCall] }
    | .response status jsonBody textBody =>
      if statusIsSuccess status then
        match jsonBody with
        | .error e =>
          { result := Except.error ("Connected to Elasticsearch but couldn't parse health data: " ++ e)
            store := store
            trace := [.lock .client, .unlock .client, .netCall] }
        | .ok health_data =>
          let cluster_name := ((health_data.getKey "cluster_name").asStr).getD "unknown"
          let cluster_status := ((health_data.getKey "status").asStr).getD "unknown"
          { result := Except.ok (Json.obj [("connected", Json.bool true),
              ("cluster_name", Json.str cluster_name),
              ("status", Json.str cluster_status),
              ("connection", connJson connection),
              ("health", health_data)])
            store := some connection
            trace := [.lock .client, .unlock .client, .netCall, .lock .connection, .unlock .connection] }
      else
        let error_text := textBody.getD "Unable to read error response"
        { result := Except.error ("Elasticsearch server returned an error - Status: " ++
            toString status ++ ", Response: " ++ error_text)
          store := store
          trace := [.lock .client, .unlock .client, .netCall] }
  else
    { result := Except.error "HTTP client not available"
      store := store
      trace := [.lock .client, .unlock .client] }

/-- `disconnect_from_elasticsearch` (lines 185-190): unconditionally
clears `CONNECTION` and returns `Ok(true)`. -/
def disconnect_from_elasticsearch (store : Option ElasticsearchConnection) :
    HandlerOutput Bool :=
  let _ := store
  { result := Except.ok true
    store := none
    trace := [.lock .connection, .unlock .connection] }

/-- The lock prologue shared by the read handlers (lines 195-203 etc.):
lock `CONNECTION`, lock `CLIENT`, copy both out, drop the guards in
reverse order. -/
def prologueTrace : List Event :=
  [.lock .connection, .lock .client, .unlock .client, .unlock .connection]

/-- Rust `str::parse::<u64>().ok()`: optional leading `+`, at least one
digit, digits only, value within `u64`. -/
def parseU64 (s : String) : Option Nat :=
  let cs := match s.toList with
    | '+' :: rest => rest
    | cs => cs
  if cs.isEmpty then none
  else
    match cs.foldlM (fun acc c =>
        if '0' ≤ c ∧ c ≤ '9' then some (acc * 10 + (c.toNat - '0'.toNat)) else none) 0 with
    | some n => if n < 2 ^ 64 then some n else none
    | none => none

/-- Rust `str::parse::<u32>().ok()`. -/
def parseU32 (s : String) : Option Nat :=
  let cs := match s.toList with
    | '+' :: rest => rest
    | cs => cs
  if cs.isEmpty then none
  else
    match cs.foldlM (fun acc c =>
        if '0' ≤ c ∧ c ≤ '9' then some (acc * 10 + (c.toNat - '0'.toNat)) else none) 0 with
    | some n => if n < 2 ^ 32 then some n else none
    | none => none

/-- `HashMap::get` on a `_cat/indices` row (serde keeps the last value of
a duplicated key, so keys are effectively unique; association-list lookup
models the map). -/
def rowGet (row : List (String × String)) (k : String) : Option String :=
  row.lookup k

/-- The per-row mapping of `get_elasticsearch_indices` (lines 217-228):
each field looked up by its wire name, numeric fields parsed leniently,
everything defaulting when missing or unparsable. -/
def indexFromRow (row : List (String × String)) : ElasticsearchIndex :=
  { name := (rowGet row "index").getD ""
    health := (rowGet row "health").getD ""
    status := (rowGet row "status").getD ""
    docs_count := ((rowGet row "docs.count").bind parseU64).getD 0
    docs_deleted := ((rowGet row "docs.deleted").bind parseU64).getD 0
    primary_shards := ((rowGet row "pri").bind parseU32).getD 0
    replica_shards := ((rowGet row "rep").bind parseU32).getD 0
    storage_size := (rowGet row "store.size").getD "" }

/-- Serde deserialization of one JSON value into `HashMap<String,String>`:
an object all of whose values are strings. -/
def decodeStringMap (j : Json) : Option (List (String × String)) :=
  match j with
  | .obj fields =>
    fields.mapM (fun p =>
      match p.snd with
      | .str s => some (p.fst, s)
      | _ => none)
  | _ => none

/-- Serde deserialization into `Vec<HashMap<String,String>>`. -/
def decodeRows (j : Json) : Option (List (List (String × String))) :=
  match j with
  | .arr elems => elems.mapM decodeStringMap
  | _ => none

/-- `get_elasticsearch_indices` (lines 192-231): requires an active
session, GETs `_cat/indices`, maps each row through `indexFromRow`. -/
def get_elasticsearch_indices (clientAvailable : Bool) (outcome : HttpOutcome)
    (store : Option ElasticsearchConnection) :
    HandlerOutput (List ElasticsearchIndex) :=
  match store with
  | none =>
    { result := Except.error "Not connected to Elasticsearch"
      store := store, trace := prologueTrace }
  | some conn =>
    if clientAvailable then
      match create_auth_headers conn with
      | .error e =>
        { result := Except.error e, store := store, trace := prologueTrace }
      | .ok _headers =>
        match outcome with
        | .failure e =>
          { result := Except.error e, store := store, trace := prologueTrace ++ [.netCall] }
        | .response status jsonBody _textBody =>
          if statusIsSuccess status then
            match jsonBody with
            | .error e =>
              { result := Except.error e, store := store, trace := prologueTrace ++ [.netCall] }
            | .ok j =>
              match decodeRows j with
              | none =>
                { result := Except.error "error decoding response body: invalid type"
                  store := store, trace := prologueTrace ++ [.netCall] }
              | some rows =>
                { result := Except.ok (rows.map indexFromRow)
                  store := store, trace := prologueTrace ++ [.netCall] }
          else
            { result := Except.error ("Failed to get indices: " ++ toString status)
              store := store, trace := prologueTrace ++ [.netCall] }
    else
      { result := Except.error "HTTP client not available"
        store := store, trace := prologueTrace }

/-- `execute_elasticsearch_query` (lines 233-293): requires an active
session, builds headers, parses the caller's query text as JSON
(`serde_json::from_str`, modelled by the external `fromStr` parameter)
before any network call, POSTs `_search`, and normalizes the response.
`u32` casts of shard counts truncate modulo `2 ^ 32`. -/
def execute_elasticsearch_query (fromStr : String → Except String Json)
    (clientAvailable : Bool) (outcome : HttpOutcome)
    (index query : String) (store : Option ElasticsearchConnection) :
    HandlerOutput QueryResult :=
  let _ := index
  match store with
  | none =>
    { result := Except.error "Not connected to Elasticsearch"
      store := store, trace := prologueTrace }
  | some conn =>
    if clientAvailable then
      match create_auth_headers conn with
      | .error e =>
        { result := Except.error e, store := store, trace := prologueTrace }
      | .ok _headers =>
        match fromStr query with
        | .error e =>
          { result := Except.error e, store := store, trace := prologueTrace }
        | .ok _query_json =>
          match outcome with
          | .failure e =>
            { result := Except.error e, store := store, trace := prologueTrace ++ [.netCall] }
          | .response status jsonBody _textBody =>
            if statusIsSuccess status then
              match jsonBody with
              | .error e =>
                { result := Except.error e, store := store, trace := prologueTrace ++ [.netCall] }
              | .ok response_body =>
                match ((response_body.getKey "hits").getKey "hits").asArr with
                | none =>
                  { result := Except.error "Invalid response format"
                    store := store, trace := prologueTrace ++ [.netCall] }
                | some hits =>
                  let total :=
                    if ((response_body.getKey "hits").getKey "total").isObj then
                      ((((response_body.getKey "hits").getKey "total").getKey "value").asU64).getD 0
                    else
                      (((response_body.getKey "hits").getKey "total").asU64).getD 0
                  let took := ((response_body.getKey "took").asU64).getD 0
                  let timed_out := ((response_body.getKey "timed_out").asBool).getD false
                  let shards : QueryShards :=
                    { total := (((response_body.getKey "_shards").getKey "total").asU64).getD 0 % 2 ^ 32
                      successful := (((response_body.getKey "_shards").getKey "successful").asU64).getD 0 % 2 ^ 32
                      failed := (((response_body.getKey "_shards").getKey "failed").asU64).getD 0 % 2 ^ 32
                      skipped := (((response_body.getKey "_shards").getKey "skipped").asU64).getD 0 % 2 ^ 32 }
                  { result := Except.ok
                      { hits := hits, total := total, took := took
                        timed_out := timed_out, shards := shards }
                    store := store, trace := prologueTrace ++ [.netCall] }
            else
              { result := Except.error ("Failed to execute query: " ++ toString status)
                store := store, trace := prologueTrace ++ [.netCall] }
    else
      { result := Except.error "HTTP client not available"
        store := store, trace := prologueTrace }

/-- `get_elasticsearch_cluster_health` (lines 295-332): requires an
active session, GETs `/_cluster/health`, normalizes with defaults;
`pending_tasks` reads the wire field `number_of_pending_tasks`. -/
def get_elasticsearch_cluster_health (clientAvailable : Bool) (outcome : HttpOutcome)
    (store : Option ElasticsearchConnection) : HandlerOutput ClusterHealth :=
  match store with
  | none =>
    { result := Except.error "Not connected to Elasticsearch"
      store := store, trace := prologueTrace }
  | some conn =>
    if clientAvailable then
      match create_auth_headers conn with
      | .error e =>
        { result := Except.error e, store := store, trace := prologueTrace }
      | .ok _headers =>
        match outcome with
        | .failure e =>
          { result := Except.error e, store := store, trace := prologueTrace ++ [.netCall] }
        | .response status jsonBody _textBody =>
          if statusIsSuccess status then
            match jsonBody with
            | .error e =>
              { result := Except.error e, store := store, trace := prologueTrace ++ [.netCall] }
            | .ok health_data =>
              { result := Except.ok
                  { cluster_name := ((health_data.getKey "cluster_name").asStr).getD ""
                    status := ((health_data.getKey "status").asStr).getD ""
                    number_of_nodes := ((health_data.getKey "number_of_nodes").asU64).getD 0 % 2 ^ 32
                    number_of_data_nodes := ((health_data.getKey "number_of_data_nodes").asU64).getD 0 % 2 ^ 32
                    active_primary_shards := ((health_data.getKey "active_primary_shards").asU64).getD 0 % 2 ^ 32
                    active_shards := ((health_data.getKey "active_shards").asU64).getD 0 % 2 ^ 32
                    relocating_shards := ((health_data.getKey "relocating_shards").asU64).getD 0 % 2 ^ 32
                    initializing_shards := ((health_data.getKey "initializing_shards").asU64).getD 0 % 2 ^ 32
                    unassigned_shards := ((health_data.getKey "unassigned_shards").asU64).getD 0 % 2 ^ 32
                    pending_tasks := ((health_data.getKey "number_of_pending_tasks").asU64).getD 0 % 2 ^ 32 }
                store := store, trace := prologueTrace ++ [.netCall] }
          else
            { result := Except.error ("Failed to get cluster health: " ++ toString status)
              store := store, trace := prologueTrace ++ [.netCall] }
    else
      { result := Except.error "HTTP client not available"
        store := store, trace := prologueTrace }

/-! ### Concrete fixtures used by witnesses -/

/-- A descriptor with no authentication. -/
def testConnNone : ElasticsearchConnection :=
  { id := "1", name := "local", host := "localhost", port := 9200,
    username := none, password := none, ssl := none, api_key := none,
    auth_type := "none" }

/-- A descriptor with basic authentication. -/
def testConnBasic : ElasticsearchConnection :=
  { id := "2", name := "prod", host := "es.example.com", port := 9243,
    username := some "alice", password := some "secret", ssl := some true,
    api_key := none, auth_type := "basic" }

/-- A basic-auth descriptor missing its password. -/
def testConnBasicNoPass : ElasticsearchConnection :=
  { id := "3", name := "dev", host := "127.0.0.1", port := 9200,
    username := some "alice", password := none, ssl := none,
    api_key := none, auth_type := "basic" }

/-- A healthy `_cluster/health` body. -/
def testHealthBody : Json :=
  Json.obj [("cluster_name", Json.str "es"), ("status", Json.str "green")]

/-- A successful transport outcome carrying the health body. -/
def testOkOutcome : HttpOutcome :=
  HttpOutcome.response 200 (Except.ok testHealthBody) (some "")

/-- A transport-level failure outcome. -/
def testFailOutcome : HttpOutcome := HttpOutcome.failure "connection refused"

/-- A parse function that rejects every input, standing in for
`serde_json::from_str` on malformed text. -/
def testFromStrFail : String → Except String Json :=
  fun _ => Except.error "expected value at line 1 column 1"

/-! ### Claims -/

/-- C8: `disconnect` always succeeds, regardless of the prior Session
Store state, and an immediately following `get()` reports "not
connected". -/
theorem disconnect_always_clears_session (store : Option ElasticsearchConnection) :
    (disconnect_from_elasticsearch store).result = Except.ok true ∧
    sessionGet (disconnect_from_elasticsearch store).store =
      Except.error "Not connected to Elasticsearch" :=
  ⟨rfl, rfl⟩

/-- C6: with no active descriptor in the Session Store, `list_indices`
and `get_cluster_health` fail with the not-connected error and issue no
network call, whatever the transport would have answered. -/
theorem no_session_fails_without_network (clientAvailable : Bool) (outcome : HttpOutcome) :
    (get_elasticsearch_indices clientAvailable outcome none).result =
      Except.error "Not connected to Elasticsearch" ∧
    netCalls (get_elasticsearch_indices clientAvailable outcome none).trace = 0 ∧
    (get_elasticsearch_cluster_health clientAvailable outcome none).result =
      Except.error "Not connected to Elasticsearch" ∧
    netCalls (get_elasticsearch_cluster_health clientAvailable outcome none).trace = 0 := by
  refine ⟨rfl, ?_, rfl, ?_⟩ <;> rfl

/-- C10: in `execute_query` the active-session check precedes query
parsing: with no session the call fails with the not-connected error —
never a syntax error — for every query text and every parse function,
and no network call is issued. -/
theorem execute_query_session_check_precedes_parse
    (fromStr : String → Except String Json) (clientAvailable : Bool)
    (outcome : HttpOutcome) (index query : String) :
    (execute_elasticsearch_query fromStr clientAvailable outcome index query none).result =
      Except.error "Not connected to Elasticsearch" ∧
    netCalls (execute_elasticsearch_query fromStr clientAvailable outcome index query none).trace = 0 := by
  exact ⟨rfl, rfl⟩

/-- C1: a successful `connect` stores the submitted descriptor, so the
following `get()` yields it; every failing `connect` (transport failure,
non-success status, unparsable body) leaves the Session Store exactly as
it was. -/
theorem connect_stores_descriptor_only_on_success (clientAvailable : Bool)
    (outcome : HttpOutcome) (connection : ElasticsearchConnection)
    (store : Option ElasticsearchConnection) :
    ((connect_to_elasticsearch clientAvailable outcome connection store).result.isOk = true →
      sessionGet (connect_to_elasticsearch clientAvailable outcome connection store).store =
        Except.ok connection) ∧
    ((connect_to_elasticsearch clientAvailable outcome connection store).result.isOk = false →
      (connect_to_elasticsearch clientAvailable outcome connection store).store = store) := by
  unfold connect_to_elasticsearch
  repeat' split
  all_goals simp [Except.isOk, Except.toBool, sessionGet]

/-- Witness for C1: a reachable green cluster stores the descriptor; a
refused connection leaves the previous session in place. -/
theorem connect_stores_descriptor_only_on_success_witness :
    sessionGet (connect_to_elasticsearch true testOkOutcome testConnBasic none).store =
      Except.ok testConnBasic ∧
    (connect_to_elasticsearch true testFailOutcome testConnBasic (some testConnNone)).store =
      some testConnNone :=
  ⟨(connect_stores_descriptor_only_on_success true testOkOutcome testConnBasic none).1 rfl,
   (connect_stores_descriptor_only_on_success true testFailOutcome testConnBasic
      (some testConnNone)).2 rfl⟩

/-- C2: with an active session and well-formed headers, a query text the
JSON parser rejects makes `execute_query` fail with exactly the parser's
error, and — whatever the session or client state — a parse-failing query
never leads to a network call. -/
theorem execute_query_syntax_error_before_network
    (fromStr : String → Except String Json) (outcome : HttpOutcome)
    (index query e : String) (conn : ElasticsearchConnection)
    (headers : List (String × String))
    (hca : create_auth_headers conn = Except.ok headers)
    (hq : fromStr query = Except.error e) :
    (execute_elasticsearch_query fromStr true outcome index query (some conn)).result =
      Except.error e ∧
    ∀ (clientAvailable : Bool) (store : Option ElasticsearchConnection),
      netCalls (execute_elasticsearch_query fromStr clientAvailable outcome
        index query store).trace = 0 := by
  constructor
  · simp [execute_elasticsearch_query, hca, hq]
  · intro clientAvailable store
    cases store with
    | none => rfl
    | some conn2 =>
      cases clientAvailable with
      | false => rfl
      | true =>
        cases hca2 : create_auth_headers conn2 with
        | error e2 => simp only [execute_elasticsearch_query, hca2]; rfl
        | ok hs2 => simp only [execute_elasticsearch_query, hca2, hq]; rfl

/-- Witness for C2: a rejected query text on a live no-auth session
yields the parser's error and a network-silent trace. -/
theorem execute_query_syntax_error_before_network_witness :
    (execute_elasticsearch_query testFromStrFail true testOkOutcome "logs" "not json"
        (some testConnNone)).result =
      Except.error "expected value at line 1 column 1" ∧
    netCalls (execute_elasticsearch_query testFromStrFail true testOkOutcome "logs" "not json"
        (some testConnNone)).trace = 0 :=
  ⟨(execute_query_syntax_error_before_network testFromStrFail testOkOutcome "logs" "not json"
      _ testConnNone [(CONTENT_TYPE, "application/json")] rfl rfl).1,
   (execute_query_syntax_error_before_network testFromStrFail testOkOutcome "logs" "not json"
      _ testConnNone [(CONTENT_TYPE, "application/json")] rfl rfl).2 true (some testConnNone)⟩

/-- C5: a success-status search response whose body has no `hits.hits`
array makes `execute_query` fail with the invalid-format error instead of
returning an empty result. -/
theorem execute_query_missing_hits_is_parse_error
    (fromStr : String → Except String Json) (index query : String)
    (conn : ElasticsearchConnection) (headers : List (String × String))
    (qj : Json) (status : Nat) (j : Json) (textBody : Option String)
    (hca : create_auth_headers conn = Except.ok headers)
    (hq : fromStr query = Except.ok qj)
    (hstatus : statusIsSuccess status = true)
    (hhits : ((j.getKey "hits").getKey "hits").asArr = none) :
    (execute_elasticsearch_query fromStr true
        (HttpOutcome.response status (Except.ok j) textBody)
        index query (some conn)).result = Except.error "Invalid response format" := by
  simp [execute_elasticsearch_query, hca, hq, hstatus, hhits]

/-- Witness for C5: a 200 response whose body is `{"took":3}` is rejected
as an invalid response format. -/
theorem execute_query_missing_hits_is_parse_error_witness :
    (execute_elasticsearch_query (fun _ => Except.ok (Json.obj [])) true
        (HttpOutcome.response 200 (Except.ok (Json.obj [("took", Json.num 3)])) none)
        "logs" "\x7b\x7d" (some testConnNone)).result =
      Except.error "Invalid response format" :=
  execute_query_missing_hits_is_parse_error (fun _ => Except.ok (Json.obj []))
    "logs" "\x7b\x7d" testConnNone [(CONTENT_TYPE, "application/json")]
    (Json.obj []) 200 (Json.obj [("took", Json.num 3)]) none rfl rfl rfl rfl

/-- C4: the normalized total is extracted identically from both wire
forms of `hits.total`: from the `value` field when it is an object, from
the numeral itself when it is a scalar. -/
theorem execute_query_total_normalizes_both_forms
    (fromStr : String → Except String Json) (index query : String)
    (conn : ElasticsearchConnection) (headers : List (String × String))
    (qj : Json) (status : Nat) (j : Json) (textBody : Option String)
    (hits : List Json) (v : Nat)
    (hca : create_auth_headers conn = Except.ok headers)
    (hq : fromStr query = Except.ok qj)
    (hstatus : statusIsSuccess status = true)
    (hhits : ((j.getKey "hits").getKey "hits").asArr = some hits)
    (hv : v < 2 ^ 64) :
    (∀ fields, (j.getKey "hits").getKey "total" = Json.obj fields →
      fields.lookup "value" = some (Json.num v) →
      ((execute_elasticsearch_query fromStr true
          (HttpOutcome.response status (Except.ok j) textBody)
          index query (some conn)).result.map QueryResult.total) = Except.ok v) ∧
    ((j.getKey "hits").getKey "total" = Json.num v →
      ((execute_elasticsearch_query fromStr true
          (HttpOutcome.response status (Except.ok j) textBody)
          index query (some conn)).result.map QueryResult.total) = Except.ok v) := by
  have hvInt : (v : Int) < 2 ^ 64 := by exact_mod_cast hv
  have hvLit : v < 18446744073709551616 := by omega
  constructor
  · intro fields hobj hval
    simp only [execute_elasticsearch_query, hca, hq, hstatus, hhits, Except.map, hobj]
    simp [Json.isObj, Json.getKey, hval, Json.asU64, hvInt, hvLit]
  · intro hnum
    simp only [execute_elasticsearch_query, hca, hq, hstatus, hhits, Except.map, hnum]
    simp [Json.isObj, Json.asU64, hvInt, hvLit]

/-- Witness for C4: the bodies with `"total":\x7b"value":5\x7d` and with
`"total":5` both normalize to total 5. -/
theorem execute_query_total_normalizes_both_forms_witness :
    ((execute_elasticsearch_query (fun _ => Except.ok (Json.obj [])) true
        (HttpOutcome.response 200 (Except.ok (Json.obj [("hits", Json.obj
          [("total", Json.obj [("value", Json.num 5)]), ("hits", Json.arr [])])])) none)
        "logs" "\x7b\x7d" (some testConnNone)).result.map QueryResult.total) = Except.ok 5 ∧
    ((execute_elasticsearch_query (fun _ => Except.ok (Json.obj [])) true
        (HttpOutcome.response 200 (Except.ok (Json.obj [("hits", Json.obj
          [("total", Json.num 5), ("hits", Json.arr [])])])) none)
        "logs" "\x7b\x7d" (some testConnNone)).result.map QueryResult.total) = Except.ok 5 :=
  ⟨(execute_query_total_normalizes_both_forms (fun _ => Except.ok (Json.obj []))
      "logs" "\x7b\x7d" testConnNone [(CONTENT_TYPE, "application/json")]
      (Json.obj []) 200 (Json.obj [("hits", Json.obj
        [("total", Json.obj [("value", Json.num 5)]), ("hits", Json.arr [])])]) none
      [] 5 rfl rfl rfl rfl (by norm_num)).1 [("value", Json.num 5)] rfl rfl,
   (execute_query_total_normalizes_both_forms (fun _ => Except.ok (Json.obj []))
      "logs" "\x7b\x7d" testConnNone [(CONTENT_TYPE, "application/json")]
      (Json.obj []) 200 (Json.obj [("hits", Json.obj
        [("total", Json.num 5), ("hits", Json.arr [])])]) none
      [] 5 rfl rfl rfl rfl (by norm_num)).2 rfl⟩

/-- The `_cat/indices` row of the spec's example: `docs.deleted`, `rep`
and `store.size` are absent. -/
def exampleRow : List (String × String) :=
  [("index", "logs"), ("health", "green"), ("status", "open"),
   ("docs.count", "1000"), ("pri", "3")]

/-- C7: `list_indices` maps every wire row through the lenient
`indexFromRow` normalization; a missing field or an unparsable numeric
string yields the typed default instead of an error, and the spec's
example row normalizes as stated. -/
theorem list_indices_lenient_row_mapping
    (status : Nat) (textBody : Option String)
    (conn : ElasticsearchConnection) (headers : List (String × String))
    (j : Json) (rows : List (List (String × String)))
    (hca : create_auth_headers conn = Except.ok headers)
    (hstatus : statusIsSuccess status = true)
    (hrows : decodeRows j = some rows) :
    (get_elasticsearch_indices true (HttpOutcome.response status (Except.ok j) textBody)
        (some conn)).result = Except.ok (rows.map indexFromRow) ∧
    indexFromRow exampleRow =
      { name := "logs", health := "green", status := "open", docs_count := 1000,
        docs_deleted := 0, primary_shards := 3, replica_shards := 0, storage_size := "" } ∧
    (∀ row, rowGet row "docs.deleted" = none → (indexFromRow row).docs_deleted = 0) ∧
    (∀ row s, rowGet row "rep" = some s → parseU32 s = none →
      (indexFromRow row).replica_shards = 0) ∧
    (∀ row s, rowGet row "docs.count" = some s → parseU64 s = none →
      (indexFromRow row).docs_count = 0) := by
  refine ⟨?_, by decide, ?_, ?_, ?_⟩
  · simp [get_elasticsearch_indices, hca, hstatus, hrows]
  · intro row h
    simp [indexFromRow, h]
  · intro row s h hp
    simp [indexFromRow, h, hp]
  · intro row s h hp
    simp [indexFromRow, h, hp]

/-- Witness for C7: a one-row 200 response containing the example row
normalizes to the stated Index Summary. -/
theorem list_indices_lenient_row_mapping_witness :
    (get_elasticsearch_indices true (HttpOutcome.response 200
        (Except.ok (Json.arr [Json.obj [("index", Json.str "logs"),
          ("health", Json.str "green"), ("status", Json.str "open"),
          ("docs.count", Json.str "1000"), ("pri", Json.str "3")]])) none)
        (some testConnNone)).result = Except.ok [indexFromRow exampleRow] :=
  (list_indices_lenient_row_mapping 200 none testConnNone
    [(CONTENT_TYPE, "application/json")]
    (Json.arr [Json.obj [("index", Json.str "logs"),
      ("health", Json.str "green"), ("status", Json.str "open"),
      ("docs.count", Json.str "1000"), ("pri", Json.str "3")]])
    [exampleRow] rfl rfl rfl).1

/-- Every base64 digit is a valid header character. -/
theorem isValidHeaderChar_b64Char (n : Nat) : isValidHeaderChar (b64Char n) = true := by
  have halpha : ∀ c ∈ b64Alphabet, isValidHeaderChar c = true := by decide
  unfold b64Char
  rw [List.getD_eq_getElem?_getD]
  cases h : b64Alphabet[n]? with
  | none => simp [h]; decide
  | some c =>
    simp only [h, Option.getD_some]
    exact halpha c (List.getElem?_mem h)

/-- Every character emitted for one base64 chunk is a valid header
character. -/
theorem b64EncodeChunk_valid (bytes : List Nat) :
    ∀ c ∈ b64EncodeChunk bytes, isValidHeaderChar c = true := by
  unfold b64EncodeChunk
  split
  all_goals intro c hc
  all_goals simp only [List.mem_cons, List.not_mem_nil, or_false] at hc
  all_goals try rcases hc with rfl | rfl | rfl | rfl
  all_goals first
    | exact isValidHeaderChar_b64Char _
    | decide

/-- Every character of a base64 encoding is a valid header character. -/
theorem b64EncodeBytes_valid (bytes : List Nat) :
    ∀ c ∈ b64EncodeBytes bytes, isValidHeaderChar c = true := by
  induction bytes using b64EncodeBytes.induct with
  | case1 => intro c hc; exact absurd hc (by simp [b64EncodeBytes])
  | case2 a => intro c hc; exact b64EncodeChunk_valid _ c hc
  | case3 a b => intro c hc; exact b64EncodeChunk_valid _ c hc
  | case4 a b d rest ih =>
    intro c hc
    rw [b64EncodeBytes] at hc
    rcases List.mem_append.mp hc with h | h
    · exact b64EncodeChunk_valid _ c h
    · exact ih c h

/-- A basic-auth header value, `"Basic "` followed by base64 text, always
passes `HeaderValue::from_str`. -/
theorem isValidHeaderValue_basic (s : String) :
    isValidHeaderValue ("Basic " ++ base64Encode s) = true := by
  unfold isValidHeaderValue
  rw [List.all_eq_true]
  intro c hc
  have hc2 : c ∈ ['B', 'a', 's', 'i', 'c', ' '] ++ b64EncodeBytes (strBytes s) := hc
  rcases List.mem_append.mp hc2 with h | h
  · fin_cases h <;> decide
  · exact b64EncodeBytes_valid _ c h

/-- C3: for a `basic` descriptor with both credentials present the header
set is content-type plus `Authorization: Basic base64(user:pass)`; with
either credential absent no authorization header is built; and every
header set the builder returns contains the JSON content-type. -/
theorem create_auth_headers_basic_spec (conn : ElasticsearchConnection) :
    (∀ u p, conn.auth_type = "basic" → conn.username = some u → conn.password = some p →
      create_auth_headers conn = Except.ok
        [(CONTENT_TYPE, "application/json"),
         (AUTHORIZATION, "Basic " ++ base64Encode (u ++ ":" ++ p))]) ∧
    (conn.auth_type = "basic" → (conn.username = none ∨ conn.password = none) →
      create_auth_headers conn = Except.ok [(CONTENT_TYPE, "application/json")]) ∧
    (∀ hs, create_auth_headers conn = Except.ok hs →
      (CONTENT_TYPE, "application/json") ∈ hs) := by
  refine ⟨?_, ?_, ?_⟩
  · intro u p hb hu hp
    simp [create_auth_headers, hb, hu, hp, isValidHeaderValue_basic,
      headerInsert, CONTENT_TYPE, AUTHORIZATION]
  · intro hb habsent
    rcases habsent with hu | hp
    · simp [create_auth_headers, hb, hu, headerInsert]
    · cases hu2 : conn.username with
      | none => simp [create_auth_headers, hb, hu2, headerInsert]
      | some u => simp [create_auth_headers, hb, hu2, hp, headerInsert]
  · intro hs h
    unfold create_auth_headers at h
    repeat' split at h
    all_goals cases h
    all_goals simp [headerInsert, CONTENT_TYPE, AUTHORIZATION]

/-- Witness for C3: alice/secret yields the expected basic header pair;
a missing password yields only the content-type header. -/
theorem create_auth_headers_basic_spec_witness :
    create_auth_headers testConnBasic = Except.ok
      [(CONTENT_TYPE, "application/json"),
       (AUTHORIZATION, "Basic " ++ base64Encode ("alice" ++ ":" ++ "secret"))] ∧
    create_auth_headers testConnBasicNoPass =
      Except.ok [(CONTENT_TYPE, "application/json")] :=
  ⟨(create_auth_headers_basic_spec testConnBasic).1 "alice" "secret" rfl rfl rfl,
   (create_auth_headers_basic_spec testConnBasicNoPass).2.1 rfl (Or.inr rfl)⟩

/-- C9, counterexample: on a successful `connect` the Session Store lock
is acquired after the network call, so it is not true that every lock
section completes before any network operation begins. -/
theorem locks_before_network_counterexample :
    locksPrecedeNet (connect_to_elasticsearch true testOkOutcome testConnBasic none).trace
      = false := by
  rfl

/-- C9, amended: in every operation handler, every exclusive-access
section on the Session Store and the Request Client Provider is disjoint
from the network operation — no HTTP await ever occurs while either lock
is held (in `connect` the Session Store lock is taken only after the
network call has completed). -/
theorem no_lock_held_across_network_await (fromStr : String → Except String Json)
    (clientAvailable : Bool) (outcome : HttpOutcome)
    (connection : ElasticsearchConnection) (store : Option ElasticsearchConnection)
    (index query : String) :
    noNetWhileLocked (connect_to_elasticsearch clientAvailable outcome connection store).trace
      = true ∧
    noNetWhileLocked (disconnect_from_elasticsearch store).trace = true ∧
    noNetWhileLocked (get_elasticsearch_indices clientAvailable outcome store).trace = true ∧
    noNetWhileLocked (execute_elasticsearch_query fromStr clientAvailable outcome
      index query store).trace = true ∧
    noNetWhileLocked (get_elasticsearch_cluster_health clientAvailable outcome store).trace
      = true := by
  refine ⟨?_, rfl, ?_, ?_, ?_⟩
  · unfold connect_to_elasticsearch
    repeat' split
    all_goals rfl
  · unfold get_elasticsearch_indices
    repeat' split
    all_goals rfl
  · unfold execute_elasticsearch_query
    repeat' split
    all_goals rfl
  · unfold get_elasticsearch_cluster_health
    repeat' split
    all_goals rfl

end Elastico


